import Mathlib

/-
Verification development for the contentmaker repository (src/youtube.py).

Python strings are modelled as `List Char` (a Python `str` is a sequence of
code points).  Effectful collaborators — the completion client, the transcript
source and the on-disk cache — are modelled by explicit oracles and state
passing: a run of the normalization loop is driven by a finite list of
completion-call outcomes, and the cache directory is an association list from
video id to the stored record.
-/

set_option autoImplicit false
set_option maxRecDepth 8000

/-- Code points of a string literal, the `List Char` view of a Python `str`. -/
def strL (s : String) : List Char := s.data

/-- Characters stripped by Python `str.strip()` (the ASCII whitespace set;
Python additionally strips some rare Unicode spaces, which none of the
constants of the program contain). -/
def isPySpace (c : Char) : Bool :=
  c = ' ' || c = '\t' || c = '\n' || c = '\x0b' || c = '\x0c' || c = '\r'

/-- Python `str.strip()`: drop leading and trailing whitespace. -/
def stripL (l : List Char) : List Char :=
  ((l.dropWhile isPySpace).reverse.dropWhile isPySpace).reverse

/-- Fuel-driven worker for `splitOnL`.  Scans left to right; on a match of
`sep` it emits the accumulated piece and restarts after the separator.  The
fuel is the length of the scanned list, enough because every step consumes at
least one character. -/
def splitOnAux (sep : List Char) : Nat → List Char → List Char → List (List Char)
  | _, [], acc => [acc.reverse]
  | 0, l, acc => [acc.reverse ++ l]
  | fuel + 1, c :: rest, acc =>
    if sep.isPrefixOf (c :: rest) then
      acc.reverse :: splitOnAux sep fuel (List.drop sep.length (c :: rest)) []
    else
      splitOnAux sep fuel rest (c :: acc)

/-- Python `str.split(sep)` for a non-empty separator: the list of pieces
between non-overlapping, leftmost-first occurrences of `sep`.  (Python raises
on an empty separator; the program only ever splits on a fixed non-empty
marker, so that branch is never taken.) -/
def splitOnL (sep l : List Char) : List (List Char) :=
  if sep.isEmpty then [l] else splitOnAux sep l.length l []

/-- Outcome of one `call_openai_api` invocation, as observed by the
normalization loop: either the returned message content (src/youtube.py:207;
`[]` models both `None` content and the empty string, the two falsy cases of
line 244), or an exception re-raised by line 212. -/
inductive CallResult where
  | content (s : List Char)
  | raised
  deriving DecidableEq

/-- Outcome of `normalize_transcript` (src/youtube.py:214-261):
`ok s` models returning the normalized text `s`; `noneResult` models the
`return None` on empty completion content (line 245); `raised` models the
exception re-raised at line 261; `outOfCalls` is a modelling artifact marking
that the oracle list was exhausted while the loop would have kept calling. -/
inductive NormalizeResult where
  | ok (s : List Char)
  | noneResult
  | raised
  | outOfCalls
  deriving DecidableEq

/-- The start marker `<START NORMALIZED TRANSCRIPT>` the buffer is split on
(src/youtube.py:238,255). -/
def marker : List Char := strL "<START NORMALIZED TRANSCRIPT>"

/-- The seed prompt built at src/youtube.py:227-239: glossary, title and raw
transcript wrapped in the fixed markers and instruction block, ending with the
start marker. -/
def seed_prompt (title transcript glossary : List Char) : List Char :=
  strL "<START GAINING KNOWLEDGE>" ++ glossary
    ++ strL "<END GAINING KNOWLEDGE> <START AUTOMATICALLY GENERATED TRANSCRIPT>"
    ++ title ++ strL "\n\n" ++ transcript
    ++ strL ("<END AUTOMATICALLY GENERATED TRANSCRIPT> <START GUIDELINES FOR THE ASSISTANT> "
      ++ "Normalize this transcript verbatim from the start to the end. Do not write anything else. "
      ++ "The original transcript was automatically generated, so it contains mistakes and incorrectly transcribed terms that you should already know. "
      ++ "Stop only when you hit the length limit. Do not output that you\x27ve reached the limit. If you reach the end of the original transcript, write THE END. "
      ++ "<END GUIDELINES FOR THE ASSISTANT> <START NORMALIZED TRANSCRIPT>")

/-- The loop's break test (src/youtube.py:252): the stripped result ends with
the sentinel `THE END` and the raw result contains neither `[` nor `]`. -/
def stop_condition (result : List Char) : Bool :=
  (strL "THE END").isSuffixOf (stripL result)
    && !(result.contains '[') && !(result.contains ']')

/-- The buffer update of src/youtube.py:249-250: append `result` exactly when
its first 20 characters differ from the first 20 characters of `prev_result`. -/
def next_prompt (prompt prev_result result : List Char) : List Char :=
  if result.take 20 ≠ prev_result.take 20 then prompt ++ result else prompt

/-- Line 255: `prompt.split("<START NORMALIZED TRANSCRIPT>")[1]`.  The index-1
access never fails on the program's buffers, which always extend a seed prompt
ending in the marker, so it is modelled with default `[]`. -/
def extract_normalized (buffer : List Char) : List Char :=
  (splitOnL marker buffer).getD 1 []

/-- The `while True` loop of src/youtube.py:242-253, driven by the oracle list
of call outcomes.  Faithful detail: `prev_result` is threaded through the
recursion UNCHANGED, exactly as in the source, where it is initialized to the
empty string at line 241 and never reassigned. -/
def normalize_go : List Char → List Char → List CallResult → NormalizeResult
  | _, _, [] => .outOfCalls
  | _, _, .raised :: _ => .raised
  | prompt, prev_result, .content result :: rest =>
    if result = [] then .noneResult
    else if stop_condition result then
      .ok (extract_normalized (next_prompt prompt prev_result result))
    else
      normalize_go (next_prompt prompt prev_result result) prev_result rest

/-- `normalize_transcript(title, transcript, glossary)` (src/youtube.py:214),
with completion calls resolved by the oracle list `calls`. -/
def normalize_transcript (title transcript glossary : List Char)
    (calls : List CallResult) : NormalizeResult :=
  normalize_go (seed_prompt title transcript glossary) [] calls

/-- Number of completion calls the loop makes when fed the oracle `calls`:
one per consumed outcome, stopping after an exception, an empty content, or a
result passing the break test. -/
def calls_consumed : List CallResult → Nat
  | [] => 0
  | .raised :: _ => 1
  | .content result :: rest =>
    if result = [] then 1
    else if stop_condition result then 1
    else 1 + calls_consumed rest

/-- Characters kept by `re.sub(r"[^A-Za-z0-9_\-\.]", "", ...)` at
src/youtube.py:274: ASCII letters, digits, underscore, hyphen and dot. -/
def isSafeChar (c : Char) : Bool :=
  c.isAlpha || c.isDigit || c = '_' || c = '-' || c = '.'

/-- `sanitize_filename` (src/youtube.py:263-275): strip, replace each space
with an underscore, delete every character outside `[A-Za-z0-9_.-]`, truncate
to 200 characters. -/
def sanitize_filename (filename : List Char) : List Char :=
  ((((stripL filename).map fun c => if c = ' ' then '_' else c).filter
      isSafeChar).take 200)

/-- The output file name chosen at src/youtube.py:298-299:
`sanitize_filename(title) or "video"`, suffixed with `.txt`. -/
def output_filename (title : List Char) : List Char :=
  (if sanitize_filename title = [] then strL "video" else sanitize_filename title)
    ++ strL ".txt"

/-- The cache directory `transcript_cache/`, one JSON record per video id,
modelled as an association list `video_id -> (title, transcript)` with the
newest record first (a file write replaces the record for its id).  The JSON
layer (`json.dumps` at line 101 / `json.loads` at line 82, with
`ensure_ascii=False`) round-trips every string value exactly, so records are
stored directly. -/
abbrev CacheStore := List (List Char × List Char × List Char)

/-- `read_from_cache` (src/youtube.py:68-86): the cached `(title, transcript)`
pair if a record for `video_id` exists, else `none` (the `(None, None)`
return). -/
def read_from_cache (fs : CacheStore) (video_id : List Char) :
    Option (List Char × List Char) :=
  match fs.find? fun e => e.1 == video_id with
  | some e => some (e.2.1, e.2.2)
  | none => none

/-- `write_to_cache` (src/youtube.py:88-103): persist the record for
`video_id`, replacing any previous one. -/
def write_to_cache (fs : CacheStore) (video_id title transcript : List Char) :
    CacheStore :=
  (video_id, title, transcript) :: fs

/-- The fresh-fetch tail of `fetch_transcript` (src/youtube.py:139-142,149):
`get_youtube_transcript` is resolved by the oracle `fresh`; a truthy transcript
is written to the cache and returned with the title, anything else yields
`(None, None)` with the cache unchanged. -/
def fetch_fresh (fs : CacheStore) (video_id title : List Char)
    (fresh : Option (List Char)) : Option (List Char × List Char) × CacheStore :=
  match fresh with
  | some tr =>
    if tr ≠ [] then (some (title, tr), write_to_cache fs video_id title tr)
    else (none, fs)
  | none => (none, fs)

/-- The cache-consulting part of `fetch_transcript` (src/youtube.py:132-142):
after the video resolves to `video_id` and `title`, the cached pair is served
only when BOTH fields are truthy (`if cached_title and cached_transcript`,
line 134); otherwise the fresh fetch runs. -/
def fetch_transcript (fs : CacheStore) (video_id title : List Char)
    (fresh : Option (List Char)) : Option (List Char × List Char) × CacheStore :=
  match read_from_cache fs video_id with
  | some (ct, ctr) =>
    if ct ≠ [] ∧ ctr ≠ [] then (some (ct, ctr), fs)
    else fetch_fresh fs video_id title fresh
  | none => fetch_fresh fs video_id title fresh

/-- `process_video` (src/youtube.py:277-311), observed through the file it
writes: `fetched` is the `fetch_transcript` outcome (`none` for the
`(None, None)` case), `calls` drives the normalization loop, and the value is
`some (filename, contents)` when the output artifact is written, `none` when
the function returns without writing (no transcript, falsy normalization
result, or an exception caught by the line 308 handler). -/
def process_video (fetched : Option (List Char × List Char))
    (glossary : List Char) (calls : List CallResult) :
    Option (List Char × List Char) :=
  match fetched with
  | none => none
  | some (title, transcript) =>
    if transcript = [] then none
    else
      match normalize_transcript title transcript glossary calls with
      | .ok normalized =>
        if normalized = [] then none
        else some (output_filename title, normalized)
      | _ => none

/-- `video_urls = list(set(video_urls))` at src/youtube.py:337, the
deduplication applied before the per-video tasks are created at line 340.
Python's set iteration order is unspecified; the model keeps a canonical
order, and the claims concern membership and multiplicity only. -/
def dedup_urls (urls : List (List Char)) : List (List Char) :=
  urls.dedup

/-- C1: the source violates the duplicate-suppression claim.  `prev_result`
is initialized to the empty string at src/youtube.py:241 and never reassigned,
so the guard at line 249 compares every result against the empty string and
never suppresses: here the second completion output shares its first 20
characters with the first, yet the returned text contains all three chunks,
the duplicate included. -/
theorem duplicate_prefix_chunk_still_appended :
    (strL "abcdefghijklmnopqrstXYZ").take 20 = (strL "abcdefghijklmnopqrstuvw").take 20
      ∧ normalize_transcript (strL "t") (strL "x") (strL "g")
          [CallResult.content (strL "abcdefghijklmnopqrstuvw"),
           CallResult.content (strL "abcdefghijklmnopqrstXYZ"),
           CallResult.content (strL "done THE END")]
        = NormalizeResult.ok (strL "abcdefghijklmnopqrstuvw"
            ++ strL "abcdefghijklmnopqrstXYZ" ++ strL "done THE END") :=
  ⟨by decide, by decide⟩

/-- C2: the source violates the termination-correctness claim in its
"concatenation of all non-duplicate chunks" part.  On a three-output run whose
second output duplicates the first 20 characters of the first, the loop does
make exactly three calls, but the returned text is the concatenation of ALL
three chunks (the broken guard of line 249 appends the duplicate), not of the
two non-duplicate ones. -/
theorem duplicate_run_concatenates_every_chunk :
    calls_consumed
        [CallResult.content (strL "zzzzzzzzzzzzzzzzzzzzABC"),
         CallResult.content (strL "zzzzzzzzzzzzzzzzzzzzDEF"),
         CallResult.content (strL "ok THE END")] = 3
      ∧ normalize_transcript (strL "t2") (strL "y") (strL "h")
          [CallResult.content (strL "zzzzzzzzzzzzzzzzzzzzABC"),
           CallResult.content (strL "zzzzzzzzzzzzzzzzzzzzDEF"),
           CallResult.content (strL "ok THE END")]
        = NormalizeResult.ok (strL "zzzzzzzzzzzzzzzzzzzzABC"
            ++ strL "zzzzzzzzzzzzzzzzzzzzDEF" ++ strL "ok THE END")
      ∧ normalize_transcript (strL "t2") (strL "y") (strL "h")
          [CallResult.content (strL "zzzzzzzzzzzzzzzzzzzzABC"),
           CallResult.content (strL "zzzzzzzzzzzzzzzzzzzzDEF"),
           CallResult.content (strL "ok THE END")]
        ≠ NormalizeResult.ok (strL "zzzzzzzzzzzzzzzzzzzzABC"
            ++ strL "ok THE END") :=
  ⟨by decide, by decide, by decide⟩

/-- C3: the loop stops on a (non-empty) completion result, whatever the
buffer and previous-result state and whatever outputs would follow, exactly
when the stripped result ends with the sentinel `THE END` and the raw result
contains neither `[` nor `]`.  In particular a result ending in `THE END`
that contains a `[` anywhere never terminates the loop. -/
theorem normalize_stop_iff (p pr r : List Char) (hr : r ≠ []) :
    (∀ rest, ∃ s,
        normalize_go p pr (CallResult.content r :: rest) = NormalizeResult.ok s)
      ↔ ((strL "THE END").isSuffixOf (stripL r) = true
          ∧ r.contains '[' = false ∧ r.contains ']' = false) := by
  have hstop : stop_condition r = true
      ↔ ((strL "THE END").isSuffixOf (stripL r) = true
          ∧ r.contains '[' = false ∧ r.contains ']' = false) := by
    simp [stop_condition, Bool.and_eq_true, Bool.not_eq_true', and_assoc]
  constructor
  · intro h
    rw [← hstop]
    by_cases hc : stop_condition r = true
    · exact hc
    · exfalso
      obtain ⟨s, hs⟩ := h []
      have hgo : normalize_go p pr [CallResult.content r] = NormalizeResult.outOfCalls := by
        simp [normalize_go, hr, hc]
      rw [hgo] at hs
      exact NormalizeResult.noConfusion hs
  · intro hcond rest
    exact ⟨extract_normalized (next_prompt p pr r),
      by simp [normalize_go, hr, hstop.mpr hcond]⟩

/-- Witness for C3 at a concrete stopping result. -/
theorem normalize_stop_iff_witness :
    (strL "ok THE END") ≠ []
      ∧ ∃ s, normalize_go [] [] [CallResult.content (strL "ok THE END")]
          = NormalizeResult.ok s :=
  ⟨by decide,
    ((normalize_stop_iff [] [] (strL "ok THE END") (by decide)).mpr
      ⟨by decide, by decide, by decide⟩) []⟩

/-- C4: an empty (falsy) completion content makes the loop return the `None`
failure outcome at once, after exactly one call on that oracle tail — the
remaining outcomes are never consumed. -/
theorem empty_completion_aborts (p pr : List Char) (rest : List CallResult) :
    normalize_go p pr (CallResult.content [] :: rest) = NormalizeResult.noneResult
      ∧ calls_consumed (CallResult.content [] :: rest) = 1 :=
  ⟨by simp [normalize_go], by simp [calls_consumed]⟩

/-- C5: a completion-client exception at any call (whatever the loop state,
hence also at the first call) is propagated out of the loop after exactly that
one call, with no internal retry; and whenever `normalize_transcript`
propagates an exception, `process_video` writes no output artifact. -/
theorem completion_error_propagates :
    (∀ (p pr : List Char) (rest : List CallResult),
        normalize_go p pr (CallResult.raised :: rest) = NormalizeResult.raised
          ∧ calls_consumed (CallResult.raised :: rest) = 1)
      ∧ ∀ (title transcript glossary : List Char) (calls : List CallResult),
          normalize_transcript title transcript glossary calls = NormalizeResult.raised →
            process_video (some (title, transcript)) glossary calls = none := by
  refine ⟨fun p pr rest => ⟨rfl, rfl⟩, fun t tr g calls h => ?_⟩
  by_cases htr : tr = []
  · simp [process_video, htr]
  · simp [process_video, htr, h]

/-- Witness for C5: the client raises on the first call of a concrete run. -/
theorem completion_error_propagates_witness :
    normalize_transcript (strL "t") (strL "x") (strL "g") [CallResult.raised]
        = NormalizeResult.raised
      ∧ process_video (some (strL "t", strL "x")) (strL "g") [CallResult.raised]
        = none :=
  ⟨(completion_error_propagates.1
      (seed_prompt (strL "t") (strL "x") (strL "g")) [] []).1,
   completion_error_propagates.2 (strL "t") (strL "x") (strL "g")
      [CallResult.raised] (by decide)⟩

/-- C6: every sanitized title consists only of characters from
`[A-Za-z0-9_.-]` and has length at most 200; the title `My: Video? #1`
sanitizes to `My_Video_1`, with its spaces converted to underscores. -/
theorem sanitize_filename_safe :
    (∀ f : List Char, (sanitize_filename f).all isSafeChar = true
        ∧ (sanitize_filename f).length ≤ 200)
      ∧ sanitize_filename (strL "My: Video? #1") = strL "My_Video_1" := by
  refine ⟨fun f => ⟨?_, ?_⟩, by decide⟩
  · rw [List.all_eq_true]
    intro c hc
    exact (List.mem_filter.mp (List.take_subset _ _ hc)).2
  · exact List.length_take_le _ _

/-- C7: storing a record and looking up its id yields exactly the stored
`(title, transcript)` pair, and looking up an id with no record yields the
absence signal `none` rather than an error. -/
theorem cache_round_trip :
    (∀ (fs : CacheStore) (id t tr : List Char), id ≠ [] → t ≠ [] → tr ≠ [] →
        read_from_cache (write_to_cache fs id t tr) id = some (t, tr))
      ∧ ∀ (fs : CacheStore) (id : List Char), (∀ e ∈ fs, e.1 ≠ id) →
          read_from_cache fs id = none := by
  constructor
  · intro fs id t tr _ _ _
    simp [read_from_cache, write_to_cache, List.find?]
  · intro fs id h
    have hnone : fs.find? (fun e => e.1 == id) = none := by
      rw [List.find?_eq_none]
      intro e he
      simpa using h e he
    simp [read_from_cache, hnone]

/-- Witness for C7 at concrete non-empty strings and the empty store. -/
theorem cache_round_trip_witness :
    read_from_cache (write_to_cache [] (strL "a") (strL "b") (strL "c")) (strL "a")
        = some (strL "b", strL "c")
      ∧ read_from_cache [] (strL "x") = none :=
  ⟨cache_round_trip.1 [] (strL "a") (strL "b") (strL "c")
      (by decide) (by decide) (by decide),
   cache_round_trip.2 [] (strL "x") (by intro e he; cases he)⟩

/-- Bridging fact: `List.count` over `List Char` agrees across the two lawful
`BEq (List Char)` instances in scope (the structural one and the one derived
from decidable equality, which Mathlib's count lemmas are stated with). -/
theorem count_instances_eq (u : List Char) (l : List (List Char)) :
    l.count u = @List.count (List Char) instBEqOfDecidableEq u l := by
  induction l with
  | nil => rfl
  | cons a t ih =>
    rw [List.count_cons, @List.count_cons (List Char) instBEqOfDecidableEq, ih]
    by_cases h : a = u <;> simp [h]

/-- C8: the deduplicated URL list over which the per-video tasks are created
has no duplicates, has exactly the input's URLs as members, and contains each
input URL exactly once. -/
theorem urls_processed_once :
    ∀ urls : List (List Char),
      (dedup_urls urls).Nodup
        ∧ (∀ u, u ∈ dedup_urls urls ↔ u ∈ urls)
        ∧ ∀ u, u ∈ urls → (dedup_urls urls).count u = 1 := by
  intro urls
  refine ⟨List.nodup_dedup urls, fun u => List.mem_dedup, fun u hu => ?_⟩
  exact (count_instances_eq u (dedup_urls urls)).trans
    (List.count_eq_one_of_mem (List.nodup_dedup urls) (List.mem_dedup.mpr hu))

/-- Witness for C8 on a list with a repeated URL. -/
theorem urls_processed_once_witness :
    (strL "a") ∈ [strL "a", strL "b", strL "a"]
      ∧ (dedup_urls [strL "a", strL "b", strL "a"]).count (strL "a") = 1 :=
  ⟨by decide,
    (urls_processed_once [strL "a", strL "b", strL "a"]).2.2 (strL "a") (by decide)⟩

/-- C9: when the title sanitizes to the empty string and the pipeline
otherwise succeeds, the output artifact is still written, under the fixed
name `video.txt`. -/
theorem empty_sanitized_title_writes_video_txt
    (title transcript glossary s : List Char) (calls : List CallResult)
    (hsan : sanitize_filename title = [])
    (htr : transcript ≠ [])
    (hok : normalize_transcript title transcript glossary calls = NormalizeResult.ok s)
    (hs : s ≠ []) :
    process_video (some (title, transcript)) glossary calls
      = some (strL "video.txt", s) := by
  have hname : output_filename title = strL "video.txt" := by
    simp [output_filename, hsan]
    decide
  simp [process_video, htr, hok, hs, hname]

/-- Witness for C9: a title of three question marks sanitizes to the empty
string, and a one-chunk successful run writes `video.txt`. -/
theorem empty_sanitized_title_writes_video_txt_witness :
    sanitize_filename (strL "???") = []
      ∧ process_video (some (strL "???", strL "x")) (strL "g")
          [CallResult.content (strL "all good THE END")]
        = some (strL "video.txt", strL "all good THE END") :=
  ⟨by decide,
    empty_sanitized_title_writes_video_txt (strL "???") (strL "x") (strL "g")
      (strL "all good THE END") [CallResult.content (strL "all good THE END")]
      (by decide) (by decide) (by decide) (by decide)⟩

/-- C10: a cache record with an empty title or an empty transcript is treated
as a miss — `fetch_transcript` then behaves exactly as its fresh-fetch tail —
and conversely the cached pair is served (with the store untouched) only when
both fields are non-empty. -/
theorem empty_cache_field_is_miss :
    (∀ (fs : CacheStore) (id title : List Char) (fresh : Option (List Char))
        (ct ctr : List Char), read_from_cache fs id = some (ct, ctr) →
          ct = [] ∨ ctr = [] →
          fetch_transcript fs id title fresh = fetch_fresh fs id title fresh)
      ∧ ∀ (fs : CacheStore) (id title : List Char) (fresh : Option (List Char))
          (ct ctr : List Char), read_from_cache fs id = some (ct, ctr) →
            ct ≠ [] → ctr ≠ [] →
            fetch_transcript fs id title fresh = (some (ct, ctr), fs) := by
  constructor
  · intro fs id title fresh ct ctr hread hempty
    have hcond : ¬ (ct ≠ [] ∧ ctr ≠ []) := by
      rcases hempty with h | h <;> simp [h]
    simp [fetch_transcript, hread, hcond]
  · intro fs id title fresh ct ctr hread h1 h2
    simp [fetch_transcript, hread, h1, h2]

/-- Witness for C10: a store holding a record with an empty title for id `v`;
the fetch for `v` runs the fresh path. -/
theorem empty_cache_field_is_miss_witness :
    read_from_cache [((strL "v"), (strL ""), (strL "old"))] (strL "v")
        = some (strL "", strL "old")
      ∧ fetch_transcript [((strL "v"), (strL ""), (strL "old"))] (strL "v")
          (strL "T") (some (strL "new"))
        = fetch_fresh [((strL "v"), (strL ""), (strL "old"))] (strL "v")
          (strL "T") (some (strL "new")) :=
  ⟨by decide,
    empty_cache_field_is_miss.1 [((strL "v"), (strL ""), (strL "old"))]
      (strL "v") (strL "T") (some (strL "new")) (strL "") (strL "old")
      (by decide) (Or.inl (by decide))⟩
